import Mathlib

/-!
Shallow embedding of the listings query service in `realEstateMCP.py`
(operations `get_database_schema`, `query_listings`, `describe_columns`,
`calculate_average_price`, `find_best_deals`), together with theorems
settling the specification's claims about it.

Modelling conventions:
* Optional Python arguments become `Option` values; the Python truth test
  `if x:` on such an argument is modelled by the `truthy*` functions below
  (`None`, `0`, `0.0` and `""` are all falsy in Python).
* A listing row is a record of the columns the queries touch; SQL `WHERE`
  clauses over bound parameters are interpreted as Boolean row filters over
  a list of rows in table order, `ORDER BY price ASC` as a stable insertion
  sort on the price field, and `LIMIT 10` as `List.take 10`.
* SQL query text and its parameter list are modelled separately, exactly as
  the code builds them, so that claims about parameterization (which data
  reaches the query text and which the parameter list) can be stated.
* The SQLite float `distance` column of `find_best_deals` (trigonometric
  haversine expression) is abstracted as an explicit function argument
  `dist`; the structural claims about `find_best_deals` hold for every such
  function.
-/

/-- One row of the `Sacramento` listings table, restricted to the columns the
queries of the service reference. -/
structure Listing where
  city : String
  state : String
  beds : Int
  price : Int
  latitude : ℚ
  longitude : ℚ
deriving DecidableEq, Repr

/-- Python truthiness of an optional string argument (`if city:`):
`None` and `""` are falsy. -/
def truthyStr : Option String → Bool
  | none => false
  | some s => !(s == "")

/-- Python truthiness of an optional integer argument (`if min_beds:`):
`None` and `0` are falsy. -/
def truthyInt : Option Int → Bool
  | none => false
  | some n => !(n == 0)

/-- Python truthiness of an optional float argument (`if reference_lat:`):
`None` and `0.0` are falsy. -/
def truthyRat : Option ℚ → Bool
  | none => false
  | some q => !(q == 0)

/-- A value passed to the storage engine as a bound parameter. -/
inductive SqlValue where
  | s (v : String)
  | i (v : Int)
  | r (v : ℚ)
deriving DecidableEq, Repr

/-- The `conditions` list built by `query_listings` (realEstateMCP.py
lines 72-91): one SQL fragment per truthy filter argument, in the order
city, state, min_beds, max_price. -/
def query_listings_conditions (city state : Option String)
    (min_beds max_price : Option Int) : List String :=
  (if truthyStr city then ["city = ?"] else []) ++
  (if truthyStr state then ["state = ?"] else []) ++
  (if truthyInt min_beds then ["beds >= ?"] else []) ++
  (if truthyInt max_price then ["price <= ?"] else [])

/-- The `params` list built by `query_listings`: the value of each truthy
filter argument, in condition order. -/
def query_listings_params (city state : Option String)
    (min_beds max_price : Option Int) : List SqlValue :=
  (if truthyStr city then [SqlValue.s (city.getD (""))] else []) ++
  (if truthyStr state then [SqlValue.s (state.getD (""))] else []) ++
  (if truthyInt min_beds then [SqlValue.i (min_beds.getD 0)] else []) ++
  (if truthyInt max_price then [SqlValue.i (max_price.getD 0)] else [])

/-- The query text built by `query_listings` (lines 72, 92-93): the base
`SELECT` plus, when any condition is present, a `WHERE` clause joining the
conditions with `AND`. -/
def query_listings_text (city state : Option String)
    (min_beds max_price : Option Int) : String :=
  let conditions := query_listings_conditions city state min_beds max_price
  if conditions.isEmpty then "SELECT * FROM Sacramento"
  else "SELECT * FROM Sacramento" ++ " WHERE " ++
    String.intercalate (" AND ") conditions

/-- The `conditions` list built by `calculate_average_price`
(realEstateMCP.py lines 167-180): city and state by equality, beds by
equality (not a range). -/
def calculate_average_price_conditions (city state : Option String)
    (beds : Option Int) : List String :=
  (if truthyStr city then ["city = ?"] else []) ++
  (if truthyStr state then ["state = ?"] else []) ++
  (if truthyInt beds then ["beds = ?"] else [])

/-- The `params` list built by `calculate_average_price`. -/
def calculate_average_price_params (city state : Option String)
    (beds : Option Int) : List SqlValue :=
  (if truthyStr city then [SqlValue.s (city.getD (""))] else []) ++
  (if truthyStr state then [SqlValue.s (state.getD (""))] else []) ++
  (if truthyInt beds then [SqlValue.i (beds.getD 0)] else [])

/-- The query text built by `calculate_average_price` (lines 166, 182-183). -/
def calculate_average_price_text (city state : Option String)
    (beds : Option Int) : String :=
  let conditions := calculate_average_price_conditions city state beds
  if conditions.isEmpty then
    "SELECT AVG(price) as avg_price, COUNT(*) as total_listings FROM Sacramento"
  else
    "SELECT AVG(price) as avg_price, COUNT(*) as total_listings FROM Sacramento"
      ++ " WHERE " ++ String.intercalate (" AND ") conditions

/-- Number of filter arguments that are supplied at all (present as a value,
whether or not Python considers the value truthy). This is the count the
specification's claim C1 refers to. -/
def suppliedCount4 (city state : Option String)
    (min_beds max_price : Option Int) : Nat :=
  (if city.isSome then 1 else 0) + (if state.isSome then 1 else 0) +
  (if min_beds.isSome then 1 else 0) + (if max_price.isSome then 1 else 0)

/-- Number of filter arguments of `query_listings` that are truthy in
Python's sense (supplied and neither zero nor the empty string). -/
def truthyCount4 (city state : Option String)
    (min_beds max_price : Option Int) : Nat :=
  (if truthyStr city then 1 else 0) + (if truthyStr state then 1 else 0) +
  (if truthyInt min_beds then 1 else 0) + (if truthyInt max_price then 1 else 0)

/-- Number of filter arguments of `calculate_average_price` that are truthy. -/
def truthyCount3 (city state : Option String) (beds : Option Int) : Nat :=
  (if truthyStr city then 1 else 0) + (if truthyStr state then 1 else 0) +
  (if truthyInt beds then 1 else 0)

/-- Row filter denoted by the `WHERE` clause `query_listings` executes: the
conjunction of the conditions it appended, each reading its bound parameter. -/
def ql_matches (city state : Option String) (min_beds max_price : Option Int)
    (row : Listing) : Bool :=
  (if truthyStr city then city.getD ("") == row.city else true) &&
  (if truthyStr state then state.getD ("") == row.state else true) &&
  (if truthyInt min_beds then decide (min_beds.getD 0 ≤ row.beds) else true) &&
  (if truthyInt max_price then decide (row.price ≤ max_price.getD 0) else true)

/-- The rows `query_listings` returns: the table in its stored order,
restricted to the rows satisfying the generated `WHERE` clause. -/
def query_listings_rows (city state : Option String)
    (min_beds max_price : Option Int) (table : List Listing) : List Listing :=
  table.filter (ql_matches city state min_beds max_price)

/-- Row filter denoted by the `WHERE` clause of `calculate_average_price`:
city and state by equality, beds by equality. -/
def avg_matches (city state : Option String) (beds : Option Int)
    (row : Listing) : Bool :=
  (if truthyStr city then city.getD ("") == row.city else true) &&
  (if truthyStr state then state.getD ("") == row.state else true) &&
  (if truthyInt beds then beds.getD 0 == row.beds else true)

/-- Round to two decimal places with ties to even, as Python's `round(x, 2)`
does on the SQLite average. -/
def round2 (q : ℚ) : ℚ :=
  let c : ℚ := q * 100
  let f : Int := ⌊c⌋
  let n : Int :=
    if c - f < 1/2 then f
    else if c - f > 1/2 then f + 1
    else if f % 2 = 0 then f else f + 1
  (n : ℚ) / 100

/-- The structured result of `calculate_average_price` (lines 189-192). -/
structure AvgResult where
  average_price : Option ℚ
  total_listings : Nat
deriving DecidableEq, Repr

/-- Model of `calculate_average_price`: `AVG(price)` and `COUNT(*)` over the filtered
rows. SQLite's `AVG` over zero rows is `NULL`, which the code maps to `None`;
otherwise the code returns the average rounded to two decimals (line 190). -/
def calculate_average_price (city state : Option String) (beds : Option Int)
    (table : List Listing) : AvgResult :=
  let matching := table.filter (avg_matches city state beds)
  { average_price :=
      if matching.isEmpty then none
      else some (round2 (((matching.map (fun r => (r.price : ℚ))).sum) /
        (matching.length : ℚ))),
    total_listings := matching.length }

/-- One row of SQLite's `PRAGMA table_info` catalog view: column id, name,
declared type, not-null flag (0 or 1), default-value literal (absent when no
default is set), and 1-based position within the primary key (0 when the
column is not part of it). -/
structure ColumnInfo where
  cid : Nat
  name : String
  type : String
  notnull : Nat
  dflt_value : Option String
  pk : Nat
deriving DecidableEq, Repr

/-- The catalog: each table's name with its `table_info` rows. -/
def Catalog := List (String × List ColumnInfo)

/-- Model of `PRAGMA table_info(name)`: the catalog rows of the named table. For a
name not in the catalog SQLite returns zero rows and raises no error. -/
def pragma_table_info (catalog : Catalog) (name : String) : List ColumnInfo :=
  match catalog.find? (fun t => t.1 == name) with
  | some t => t.2
  | none => []

/-- The `Nullable:` field printed by `describe_columns` (line 138):
`'Yes' if column[3] == 0 else 'No'`. -/
def nullableStr (c : ColumnInfo) : String :=
  if c.notnull = 0 then "Yes" else "No"

/-- The `Default Value:` field printed by `describe_columns` (line 139):
`column[4] or 'None'`, i.e. the literal when it is truthy and the string
`None` when the entry is absent (or an empty string, which is falsy). -/
def defaultStr (c : ColumnInfo) : String :=
  match c.dflt_value with
  | none => "None"
  | some s => if s == "" then "None" else s

/-- The `Primary Key:` field printed by `describe_columns` (line 140):
`'Yes' if column[5] == 1 else 'No'`. -/
def pkStr (c : ColumnInfo) : String :=
  if c.pk = 1 then "Yes" else "No"

/-- The per-column block `describe_columns` appends (lines 136-141). -/
def render_column (c : ColumnInfo) : String :=
  "  - " ++ c.name ++ " (" ++ c.type ++ ")\n" ++
  "    Nullable: " ++ nullableStr c ++ "\n" ++
  "    Default Value: " ++ defaultStr c ++ "\n" ++
  "    Primary Key: " ++ pkStr c ++ "\n"

/-- The query text `describe_columns` executes per table (line 130): the
table name is interpolated into the statement text by an f-string, not
passed as a bound parameter. -/
def describe_columns_query (table_name : String) : String :=
  "PRAGMA table_info(" ++ table_name ++ ");"

/-- Model of `describe_columns` (lines 113-143): when `table_name` is falsy (absent
or empty) every catalog table is described; otherwise only the named one.
Each table contributes a header plus one block per `table_info` row. -/
def describe_columns (table_name : Option String) (catalog : Catalog) :
    String :=
  let tables :=
    if truthyStr table_name then [table_name.getD ("")]
    else catalog.map (fun t => t.1)
  "Column Descriptions:\n" ++
    String.join (tables.map (fun t =>
      "\nTable: " ++ t ++ "\n" ++
        String.join ((pragma_table_info catalog t).map render_column)))

/-- Possible storage-level errors of a call. -/
inductive DbError where
  | notFound (what : String)
  | execution (msg : String)
deriving DecidableEq, Repr

/-- The outcome of a `describe_columns` call. `PRAGMA table_info` on an
unknown table yields zero rows rather than an error, so the call never
fails for a well-formed table name: it always returns its description. -/
def describe_columns_result (table_name : Option String) (catalog : Catalog) :
    Except DbError String :=
  Except.ok (describe_columns table_name catalog)

/-- Ordering on listings used by `ORDER BY price ASC`. -/
def priceLE (a b : Listing) : Prop := a.price ≤ b.price

instance : DecidableRel priceLE := fun a b => Int.decLe a.price b.price

instance : IsTotal Listing priceLE := ⟨fun a b => Int.le_total a.price b.price⟩

instance : IsTrans Listing priceLE :=
  ⟨fun _ _ _ h₁ h₂ => Int.le_trans h₁ h₂⟩

/-- Whether `find_best_deals` takes its reference-point branch (line 229):
the Python truth test `if reference_lat and reference_lon:`, which is truthy
exactly when both floats are supplied and both are nonzero. -/
def fbd_ref_active (reference_lat reference_lon : Option ℚ) : Bool :=
  truthyRat reference_lat && truthyRat reference_lon

/-- The simple query body of `find_best_deals` (lines 219-225), whitespace
normalized. -/
def fbd_simple_query : String :=
  "SELECT * FROM Sacramento WHERE price <= ? AND beds >= ?"

/-- The reference-point query body of `find_best_deals` (lines 230-241),
whitespace normalized: a derived `distance` column (great-circle distance by
the spherical trigonometric formula with Earth radius 6371) and a bound
threshold on it. -/
def fbd_ref_query : String :=
  "SELECT *, (6371 * acos(cos(radians(?)) * cos(radians(latitude)) * " ++
  "cos(radians(longitude) - radians(?)) + " ++
  "sin(radians(?)) * sin(radians(latitude)))) AS distance " ++
  "FROM Sacramento WHERE price <= ? AND beds >= ? AND distance <= ?"

/-- The query text `find_best_deals` executes (lines 219-251): one of the two
bodies, plus the ordering and limit clause. -/
def find_best_deals_text (reference_lat reference_lon : Option ℚ) : String :=
  (if fbd_ref_active reference_lat reference_lon then fbd_ref_query
   else fbd_simple_query) ++ " ORDER BY price ASC LIMIT 10"

/-- The `params` list of `find_best_deals` (lines 226, 242-249). -/
def find_best_deals_params (max_price min_beds : Int) (max_distance : ℚ)
    (reference_lat reference_lon : Option ℚ) : List SqlValue :=
  if fbd_ref_active reference_lat reference_lon then
    [SqlValue.r (reference_lat.getD 0), SqlValue.r (reference_lon.getD 0),
     SqlValue.r (reference_lat.getD 0), SqlValue.i max_price,
     SqlValue.i min_beds, SqlValue.r max_distance]
  else [SqlValue.i max_price, SqlValue.i min_beds]

/-- The rows `find_best_deals` returns. The derived `distance` column is the
SQLite float value of the trigonometric expression; it is abstracted here as
the function `dist` of the bound reference coordinates and the row. After
filtering, rows are ordered by ascending price and capped at 10. -/
def find_best_deals (max_price min_beds : Int) (max_distance : ℚ)
    (reference_lat reference_lon : Option ℚ) (dist : ℚ → ℚ → Listing → ℚ)
    (table : List Listing) : List Listing :=
  let filtered :=
    if fbd_ref_active reference_lat reference_lon then
      table.filter (fun row =>
        decide (row.price ≤ max_price) && decide (min_beds ≤ row.beds) &&
        decide (dist (reference_lat.getD 0) (reference_lon.getD 0) row ≤
          max_distance))
    else
      table.filter (fun row =>
        decide (row.price ≤ max_price) && decide (min_beds ≤ row.beds))
  (List.insertionSort priceLE filtered).take 10

/-- First fixture row of the spec's QueryListings example: a 3-bed $480,000
Sacramento listing. -/
def c2_row1 : Listing :=
  { city := "Sacramento", state := "CA", beds := 3, price := 480000,
    latitude := 0, longitude := 0 }

/-- Second fixture row of the spec's QueryListings example: a 4-bed $520,000
Sacramento listing. -/
def c2_row2 : Listing :=
  { city := "Sacramento", state := "CA", beds := 4, price := 520000,
    latitude := 0, longitude := 0 }

/-- Fixture table of the spec's QueryListings example. -/
def c2_fixture : List Listing := [c2_row1, c2_row2]

/-- C1 counterexample: a supplied filter field whose value is the empty
string produces no predicate, so the predicate count (0) differs from the
count of supplied fields (1). The claim that a field counts as absent only
when it is not supplied — never because its value is zero or empty — is
false of the code, whose `if city:` truth tests also skip zero and empty
values. -/
theorem claim_C1_counterexample :
    (query_listings_conditions (some ("")) none none none).length ≠
      suppliedCount4 (some ("")) none none none := by
  decide

/-- C1 amended: for every combination of optional filter arguments, the
generated query of both `query_listings` and `calculate_average_price`
contains exactly one AND-joined predicate per filter field that is truthy
in Python's sense (supplied and neither zero nor empty), and is the
unconditioned query over the whole table when no field is truthy. -/
theorem claim_C1_amended :
    ∀ (city state : Option String) (min_beds max_price beds : Option Int),
      (query_listings_conditions city state min_beds max_price).length =
        truthyCount4 city state min_beds max_price ∧
      (calculate_average_price_conditions city state beds).length =
        truthyCount3 city state beds ∧
      (truthyCount4 city state min_beds max_price = 0 →
        query_listings_text city state min_beds max_price =
          "SELECT * FROM Sacramento") ∧
      (truthyCount3 city state beds = 0 →
        calculate_average_price_text city state beds =
          "SELECT AVG(price) as avg_price, COUNT(*) as total_listings FROM Sacramento") := by
  intro city state min_beds max_price beds
  refine ⟨?_, ?_, ?_, ?_⟩
  · cases hc : truthyStr city <;> cases hs : truthyStr state <;>
      cases hb : truthyInt min_beds <;> cases hp : truthyInt max_price <;>
      simp [query_listings_conditions, truthyCount4, hc, hs, hb, hp]
  · cases hc : truthyStr city <;> cases hs : truthyStr state <;>
      cases hb : truthyInt beds <;>
      simp [calculate_average_price_conditions, truthyCount3, hc, hs, hb]
  · intro h
    cases hc : truthyStr city <;> cases hs : truthyStr state <;>
      cases hb : truthyInt min_beds <;> cases hp : truthyInt max_price <;>
      simp [truthyCount4, hc, hs, hb, hp] at h <;>
      simp [query_listings_text, query_listings_conditions, hc, hs, hb, hp]
  · intro h
    cases hc : truthyStr city <;> cases hs : truthyStr state <;>
      cases hb : truthyInt beds <;>
      simp [truthyCount3, hc, hs, hb] at h <;>
      simp [calculate_average_price_text, calculate_average_price_conditions,
        hc, hs, hb]

/-- C1 amended, witness: with no filter supplied both operations issue the
unconditioned query. -/
theorem claim_C1_amended_witness :
    query_listings_text none none none none = "SELECT * FROM Sacramento" ∧
    calculate_average_price_text none none none =
      "SELECT AVG(price) as avg_price, COUNT(*) as total_listings FROM Sacramento" :=
  ⟨(claim_C1_amended none none none none none).2.2.1 (by decide),
   (claim_C1_amended none none none none none).2.2.2 (by decide)⟩

/-- Listing with a negative beds count — permitted by the table's INTEGER
column and by the model — used to refute the general minBeds claim. -/
def neg_row : Listing :=
  { city := "Sacramento", state := "CA", beds := -1, price := 100000,
    latitude := 0, longitude := 0 }

/-- C2 counterexample: with `min_beds = 0` supplied, the Python truth test
skips the beds predicate entirely, so the row with `beds = -1` is returned
even though `beds >= minBeds` fails for it — refuting the claim that
whenever minBeds is supplied only rows with `beds >= minBeds` are
returned. -/
theorem claim_C2_counterexample :
    query_listings_rows none none (some 0) none [neg_row] = [neg_row] ∧
    ¬ ((0 : Int) ≤ neg_row.beds) := by
  decide

/-- C2 amended: `query_listings` with no filters returns every row of the
table; for every supplied nonzero minBeds, every returned row has
`beds >= minBeds` (a supplied minBeds of 0 is treated as absent and
constrains nothing); for every combination of supplied filters and every
table, every returned row satisfies the predicate of each truthy filter —
city equality, state equality, the beds lower bound for nonzero minBeds,
and the price upper bound for nonzero maxPrice; and the spec's Sacramento
example returns exactly the 3-bed $480,000 row. -/
theorem claim_C2_amended :
    (∀ table : List Listing,
      query_listings_rows none none none none table = table) ∧
    (∀ b : Int, b ≠ 0 → ∀ (table : List Listing) (r : Listing),
      r ∈ query_listings_rows none none (some b) none table → b ≤ r.beds) ∧
    (∀ (city state : Option String) (min_beds max_price : Option Int)
      (table : List Listing) (r : Listing),
      r ∈ query_listings_rows city state min_beds max_price table →
      (truthyStr city = true → city = some (r.city)) ∧
      (truthyStr state = true → state = some (r.state)) ∧
      (∀ b : Int, min_beds = some b → b ≠ 0 → b ≤ r.beds) ∧
      (∀ p : Int, max_price = some p → p ≠ 0 → r.price ≤ p)) ∧
    query_listings_rows (some ("Sacramento")) none (some 3) (some 500000)
      c2_fixture = [c2_row1] := by
  refine ⟨?_, ?_, ?_, ?_⟩
  · intro table
    simp [query_listings_rows, ql_matches, truthyStr, truthyInt]
  · intro b hb table r hr
    have h := (List.mem_filter.mp hr).2
    simpa [ql_matches, truthyStr, truthyInt, hb] using h
  · intro city state min_beds max_price table r hr
    have h := (List.mem_filter.mp hr).2
    unfold ql_matches at h
    simp only [Bool.and_eq_true] at h
    obtain ⟨⟨⟨h1, h2⟩, h3⟩, h4⟩ := h
    refine ⟨?_, ?_, ?_, ?_⟩
    · intro hc
      cases city with
      | none => simp [truthyStr] at hc
      | some c =>
        simp [hc] at h1
        rw [h1]
    · intro hs
      cases state with
      | none => simp [truthyStr] at hs
      | some s =>
        simp [hs] at h2
        rw [h2]
    · intro b hbeq hbne
      subst hbeq
      have ht : truthyInt (some b) = true := by
        simp [truthyInt, hbne]
      simpa [ht] using h3
    · intro p hpeq hpne
      subst hpeq
      have ht : truthyInt (some p) = true := by
        simp [truthyInt, hpne]
      simpa [ht] using h4
  · decide

/-- C2 amended, witness: the nonzero-minBeds and membership hypotheses
discharged on the fixture — the returned 3-bed row satisfies the beds bound
and the city equality of the Sacramento filter. -/
theorem claim_C2_amended_witness :
    3 ≤ c2_row1.beds ∧
    (some ("Sacramento") : Option String) = some (c2_row1.city) :=
  ⟨claim_C2_amended.2.1 3 (by decide) c2_fixture c2_row1 (by decide),
   (claim_C2_amended.2.2.1 (some ("Sacramento")) none (some 3) (some 500000)
      c2_fixture c2_row1 (by decide)).1 (by decide)⟩

/-- C3 counterexample: `describe_columns` builds its statement text by
interpolating the caller-supplied table name into the text, so the text
varies with the input value — had the name been passed only as a bound
parameter, the statement text would be the same for every input. -/
theorem claim_C3_counterexample :
    describe_columns_query ("Sacramento") = "PRAGMA table_info(Sacramento);" ∧
    describe_columns_query ("Sacramento") ≠ describe_columns_query ("Listings") := by
  constructor
  · rfl
  · decide

/-- C3 amended: `query_listings`, `calculate_average_price` and
`find_best_deals` pass every filter value only as a bound parameter — their
query text depends solely on which filters are truthy, never on the values,
and each generated predicate is paired with exactly one parameter — and
`get_database_schema` takes no input; but `describe_columns` interpolates
its `table_name` input directly into the statement text. -/
theorem claim_C3_amended :
    (∀ c₁ s₁ b₁ p₁ c₂ s₂ b₂ p₂,
      truthyStr c₁ = truthyStr c₂ → truthyStr s₁ = truthyStr s₂ →
      truthyInt b₁ = truthyInt b₂ → truthyInt p₁ = truthyInt p₂ →
      query_listings_text c₁ s₁ b₁ p₁ = query_listings_text c₂ s₂ b₂ p₂) ∧
    (∀ c₁ s₁ b₁ c₂ s₂ b₂,
      truthyStr c₁ = truthyStr c₂ → truthyStr s₁ = truthyStr s₂ →
      truthyInt b₁ = truthyInt b₂ →
      calculate_average_price_text c₁ s₁ b₁ =
        calculate_average_price_text c₂ s₂ b₂) ∧
    (∀ la₁ lo₁ la₂ lo₂,
      fbd_ref_active la₁ lo₁ = fbd_ref_active la₂ lo₂ →
      find_best_deals_text la₁ lo₁ = find_best_deals_text la₂ lo₂) ∧
    (∀ (c s : Option String) (b p : Option Int),
      (query_listings_params c s b p).length =
        (query_listings_conditions c s b p).length ∧
      (calculate_average_price_params c s b).length =
        (calculate_average_price_conditions c s b).length) ∧
    (∀ n, describe_columns_query n = ("PRAGMA table_info(") ++ n ++ (");")) := by
  refine ⟨?_, ?_, ?_, ?_, ?_⟩
  · intro c₁ s₁ b₁ p₁ c₂ s₂ b₂ p₂ h1 h2 h3 h4
    unfold query_listings_text query_listings_conditions
    rw [← h1, ← h2, ← h3, ← h4]
  · intro c₁ s₁ b₁ c₂ s₂ b₂ h1 h2 h3
    unfold calculate_average_price_text calculate_average_price_conditions
    rw [← h1, ← h2, ← h3]
  · intro la₁ lo₁ la₂ lo₂ h
    unfold find_best_deals_text
    rw [← h]
  · intro c s b p
    constructor
    · cases hc : truthyStr c <;> cases hs : truthyStr s <;>
        cases hb : truthyInt b <;> cases hp : truthyInt p <;>
        simp [query_listings_params, query_listings_conditions, hc, hs, hb, hp]
    · cases hc : truthyStr c <;> cases hs : truthyStr s <;>
        cases hb : truthyInt b <;>
        simp [calculate_average_price_params, calculate_average_price_conditions,
          hc, hs, hb]
  · intro n
    rfl

/-- C3 amended, witness: two different city values with the same truthiness
shape yield the same query text. -/
theorem claim_C3_amended_witness :
    query_listings_text (some ("Davis")) none none none =
      query_listings_text (some ("Folsom")) none none none :=
  claim_C3_amended.1 (some ("Davis")) none none none (some ("Folsom"))
    none none none (by decide) rfl rfl rfl

/-- C4: for every input to `find_best_deals` — with or without a reference
point, for every distance function and every table — the result has at most
10 rows and is sorted in ascending order of price. -/
theorem claim_C4 :
    ∀ (max_price min_beds : Int) (max_distance : ℚ)
      (reference_lat reference_lon : Option ℚ) (dist : ℚ → ℚ → Listing → ℚ)
      (table : List Listing),
      (find_best_deals max_price min_beds max_distance reference_lat
        reference_lon dist table).length ≤ 10 ∧
      List.Sorted priceLE (find_best_deals max_price min_beds max_distance
        reference_lat reference_lon dist table) := by
  intro mp mb md la lo dist table
  constructor
  · simp only [find_best_deals]
    exact List.length_take_le 10 _
  · simp only [find_best_deals]
    exact List.Pairwise.sublist (List.take_sublist 10 _)
      (List.sorted_insertionSort priceLE _)

/-- C6: when exactly one of the reference coordinates is supplied,
`find_best_deals` behaves identically to the call with neither supplied —
the partial reference point is ignored and the simple filter shape is used. -/
theorem claim_C6 :
    ∀ (max_price min_beds : Int) (max_distance v : ℚ)
      (dist : ℚ → ℚ → Listing → ℚ) (table : List Listing),
      find_best_deals max_price min_beds max_distance (some v) none dist
          table =
        find_best_deals max_price min_beds max_distance none none dist
          table ∧
      find_best_deals max_price min_beds max_distance none (some v) dist
          table =
        find_best_deals max_price min_beds max_distance none none dist
          table := by
  intro mp mb md v dist table
  constructor <;> simp [find_best_deals, fbd_ref_active, truthyRat]

/-- C10: when both reference coordinates are supplied but one of them is
`0.0` (a valid equator or prime-meridian coordinate), the Python truth test
on the floats fails, so `find_best_deals` behaves exactly as if no reference
point had been supplied: the distance computation and the distance filter
are skipped. -/
theorem claim_C10 :
    ∀ (max_price min_beds : Int) (max_distance v : ℚ)
      (dist : ℚ → ℚ → Listing → ℚ) (table : List Listing),
      find_best_deals max_price min_beds max_distance (some 0) (some v) dist
          table =
        find_best_deals max_price min_beds max_distance none none dist
          table ∧
      find_best_deals max_price min_beds max_distance (some v) (some 0) dist
          table =
        find_best_deals max_price min_beds max_distance none none dist
          table := by
  intro mp mb md v dist table
  constructor <;> simp [find_best_deals, fbd_ref_active, truthyRat]

/-- C7: `calculate_average_price` returns the defined sentinel
`{average_price: null, total_listings: 0}` whenever no row matches the
filter, and otherwise the mean price rounded to two decimal places together
with the matching row count. -/
theorem claim_C7 :
    ∀ (city state : Option String) (beds : Option Int)
      (table : List Listing),
      (table.filter (avg_matches city state beds) = [] →
        calculate_average_price city state beds table =
          { average_price := none, total_listings := 0 }) ∧
      (table.filter (avg_matches city state beds) ≠ [] →
        calculate_average_price city state beds table =
          { average_price :=
              some (round2
                ((((table.filter (avg_matches city state beds)).map
                    (fun r => (r.price : ℚ))).sum) /
                  ((table.filter (avg_matches city state beds)).length : ℚ))),
            total_listings :=
              (table.filter (avg_matches city state beds)).length }) := by
  intro city state beds table
  constructor
  · intro h
    simp [calculate_average_price, h]
  · intro h
    have he : (table.filter (avg_matches city state beds)).isEmpty = false := by
      simpa [List.isEmpty_iff] using h
    simp [calculate_average_price, he]

/-- C7 witness: both hypotheses discharged on the fixture table — a filter
matching nothing yields the sentinel, and the Sacramento filter yields the
rounded mean of the two matching rows. -/
theorem claim_C7_witness :
    calculate_average_price (some ("Nowhere")) none none c2_fixture =
      { average_price := none, total_listings := 0 } ∧
    calculate_average_price (some ("Sacramento")) none none c2_fixture =
      { average_price :=
          some (round2
            ((((c2_fixture.filter
                (avg_matches (some ("Sacramento")) none none)).map
                (fun r => (r.price : ℚ))).sum) /
              ((c2_fixture.filter
                (avg_matches (some ("Sacramento")) none none)).length : ℚ))),
        total_listings :=
          (c2_fixture.filter
            (avg_matches (some ("Sacramento")) none none)).length } :=
  ⟨(claim_C7 (some ("Nowhere")) none none c2_fixture).1 (by decide),
   (claim_C7 (some ("Sacramento")) none none c2_fixture).2 (by decide)⟩

/-- Sample catalog with one table used to settle the DescribeColumns
claims. -/
def sample_columns : List ColumnInfo :=
  [{ cid := 0, name := "city", type := "TEXT", notnull := 0,
     dflt_value := none, pk := 0 },
   { cid := 1, name := "price", type := "INTEGER", notnull := 0,
     dflt_value := none, pk := 0 }]

/-- Sample catalog containing only the `Sacramento` table. -/
def sample_catalog : Catalog := [("Sacramento", sample_columns)]

/-- C8 counterexample: called on a table name absent from the catalog,
`describe_columns` does not fail with a NotFound-style error — SQLite's
`PRAGMA table_info` simply yields zero rows there — so the call succeeds
and returns a normal description consisting of the header and the table
line with no columns. -/
theorem claim_C8_counterexample :
    describe_columns_result (some ("Listings")) sample_catalog =
      Except.ok ("Column Descriptions:\n\nTable: Listings\n") := by
  show Except.ok (describe_columns (some ("Listings")) sample_catalog) = _
  have h : describe_columns (some ("Listings")) sample_catalog =
      "Column Descriptions:\n\nTable: Listings\n" := by decide
  rw [h]

/-- C8 amended: for every nonempty table name, `describe_columns` succeeds
and returns the header plus one block per catalog column of that name —
whatever the catalog holds. In particular a name absent from the catalog
yields a normal description with zero column blocks (no NotFound-style
error), and an existing table with zero rows yields its full column list,
since the output depends only on the catalog, never on row contents. -/
theorem claim_C8_amended :
    ∀ (catalog : Catalog) (name : String) (cols : List ColumnInfo),
      name ≠ "" → pragma_table_info catalog name = cols →
      describe_columns_result (some name) catalog =
        Except.ok ("Column Descriptions:\n" ++
          ("\nTable: " ++ name ++ "\n" ++
            String.join (cols.map render_column))) := by
  intro catalog name cols hne hcols
  have hb : (name == "") = false := by
    simpa using hne
  simp [describe_columns_result, describe_columns, truthyStr, hb, hcols,
    String.join]

/-- C8 amended, witness: the hypotheses discharged on the sample catalog at
its one existing table, whose column list is returned in full. -/
theorem claim_C8_amended_witness :
    describe_columns_result (some ("Sacramento")) sample_catalog =
      Except.ok ("Column Descriptions:\n" ++
        ("\nTable: " ++ ("Sacramento") ++ "\n" ++
          String.join (sample_columns.map render_column))) :=
  claim_C8_amended sample_catalog ("Sacramento") sample_columns
    (by decide) (by decide)

/-- Second column of a two-column composite primary key, as SQLite's
catalog reports it: `pk = 2` (its 1-based position within the key). -/
def composite_pk_col : ColumnInfo :=
  { cid := 1, name := "y", type := "INTEGER", notnull := 0,
    dflt_value := none, pk := 2 }

/-- Sample column carrying a default-value literal in the catalog. -/
def defaulted_col : ColumnInfo :=
  { cid := 2, name := "z", type := "INTEGER", notnull := 1,
    dflt_value := some ("0"), pk := 0 }

/-- C9 counterexample: `describe_columns` prints `Primary Key: Yes` only
when the catalog's pk index equals 1, so the second column of a composite
primary key — part of the primary key, pk index 2 — is reported as not
being part of it, refuting the claim that primary-key membership is
reported for every column. -/
theorem claim_C9_counterexample :
    pkStr composite_pk_col = "No" ∧ composite_pk_col.pk ≠ 0 := by
  decide

/-- C9 amended: for every described column, `describe_columns` reports the
column's name and type, its nullable status as the inversion of the
catalog's not-null flag, its default value — the literal when one is set
and nonempty, an explicit none marker when unset — and reports the column
as primary key exactly when its pk index is 1, i.e. it correctly reports
membership for single-column primary keys but marks the later components
of a composite primary key as non-primary-key. -/
theorem claim_C9_amended :
    ∀ c : ColumnInfo,
      (nullableStr c = "Yes" ↔ c.notnull = 0) ∧
      (c.dflt_value = none → defaultStr c = "None") ∧
      (∀ s, c.dflt_value = some s → s ≠ "" → defaultStr c = s) ∧
      (pkStr c = "Yes" ↔ c.pk = 1) ∧
      render_column c =
        "  - " ++ c.name ++ " (" ++ c.type ++ ")\n" ++
        "    Nullable: " ++ nullableStr c ++ "\n" ++
        "    Default Value: " ++ defaultStr c ++ "\n" ++
        "    Primary Key: " ++ pkStr c ++ "\n" := by
  intro c
  refine ⟨?_, ?_, ?_, ?_, rfl⟩
  · unfold nullableStr
    by_cases h : c.notnull = 0 <;> simp [h]
  · intro h
    simp [defaultStr, h]
  · intro s hs hne
    have hb : (s == "") = false := by
      simpa using hne
    simp [defaultStr, hs, hb]
  · unfold pkStr
    by_cases h : c.pk = 1 <;> simp [h]

/-- C9 amended, witness: the default-value hypotheses discharged on a
column without a default and on one whose default literal is `0`. -/
theorem claim_C9_amended_witness :
    defaultStr composite_pk_col = "None" ∧ defaultStr defaulted_col = "0" :=
  ⟨(claim_C9_amended composite_pk_col).2.1 rfl,
   (claim_C9_amended defaulted_col).2.2.1 ("0") rfl (by decide)⟩
